import Mathlib

/-!
Shallow embedding of the healthy-lifestyle tracking bot (src/bot.py).

Pure functions (`parse_float`, `parse_int`, `calc_water_goal`,
`calc_calorie_goal`, `ensure_profile`, the workout table) are translated
directly.  Stateful handlers are translated as explicit state-passing
functions over a `UserRec` record mirroring the per-user dict created in
`get_user`.  Python floats are modelled as rationals (`ℚ`); Python's
`int()` truncation toward zero is `truncQ`; Python's `//` floor division
on integers is `Int.fdiv`.  The network collaborators (weather, food
lookup) are modelled as explicit oracle arguments describing the outcome
of the call, and results record whether a collaborator call was issued.
-/

/-- Python `int(x)` on a float value: truncation toward zero. -/
def truncQ (q : ℚ) : ℤ :=
  if 0 ≤ q.num then ((q.num.toNat / q.den : ℕ) : ℤ)
  else -(((-q.num).toNat / q.den : ℕ) : ℤ)

/-- Characters stripped by Python `str.strip()` (the whitespace forms that occur in chat input). -/
def isSpaceChar (c : Char) : Bool :=
  c = ' ' || c = '\t' || c = '\n' || c = '\r'

/-- Strip leading and trailing whitespace from a character list. -/
def trimChars (l : List Char) : List Char :=
  ((l.dropWhile isSpaceChar).reverse.dropWhile isSpaceChar).reverse

/-- Value of a decimal digit character. -/
def digToNat (c : Char) : Option ℕ :=
  if '0' ≤ c ∧ c ≤ '9' then some (c.toNat - '0'.toNat) else none

/-- Accumulate a digit string left to right. -/
def digitsAux : List Char → ℕ → Option ℕ
  | [], acc => some acc
  | c :: cs, acc =>
    match digToNat c with
    | some d => digitsAux cs (acc * 10 + d)
    | none => none

/-- Parse a non-empty all-digit string. -/
def digitsToNat (l : List Char) : Option ℕ :=
  if l.isEmpty then none else digitsAux l 0

/-- Split a character list on the `.` character. -/
def splitOnDot : List Char → List (List Char)
  | [] => [[]]
  | c :: cs =>
    let r := splitOnDot cs
    if c = '.' then [] :: r
    else
      match r with
      | [] => [[c]]
      | h :: t => (c :: h) :: t

/-- Parse the body of a decimal numeral (no sign), as Python `float` accepts it. -/
def parseDecimalBody (body : List Char) : Option ℚ :=
  match splitOnDot body with
  | [ip] => (digitsToNat ip).map (fun n => (n : ℚ))
  | [ip, fp] =>
    if ip.isEmpty && fp.isEmpty then none
    else if fp.isEmpty then (digitsToNat ip).map (fun n => (n : ℚ))
    else if ip.isEmpty then
      (digitsToNat fp).map (fun f => (f : ℚ) / (10 : ℚ) ^ fp.length)
    else
      match digitsToNat ip, digitsToNat fp with
      | some i, some f => some ((i : ℚ) + (f : ℚ) / (10 : ℚ) ^ fp.length)
      | _, _ => none
  | _ => none

/-- `parse_float` from bot.py: `float(value.replace(",", "."))`, `None` on failure.
Modelled for plain decimal numerals (optional sign, comma or dot separator). -/
def parse_float (s : String) : Option ℚ :=
  let chars := trimChars (s.toList.map (fun c => if c = ',' then '.' else c))
  let signed : Bool × List Char :=
    match chars with
    | '-' :: rest => (true, rest)
    | '+' :: rest => (false, rest)
    | rest => (false, rest)
  (parseDecimalBody signed.2).map (fun q => if signed.1 then -q else q)

/-- `parse_int` from bot.py: `int(float(value.replace(",", ".")))`, `None` on failure. -/
def parse_int (s : String) : Option ℤ :=
  (parse_float s).map truncQ

/-- One entry of the per-user `history` list: `{"ts": ..., "kind": ..., "amount": ...}`.
Timestamps are modelled as rational minutes. -/
structure HistEvent where
  ts : ℚ
  kind : String
  amount : ℚ
deriving DecidableEq

/-- The per-user record created by `get_user`'s `setdefault` default dict. -/
structure UserRec where
  weight : Option ℚ
  height : Option ℤ
  age : Option ℤ
  sex : Option String
  activity : Option ℤ
  city : Option String
  manual_calorie_goal : Option ℤ
  logged_water : ℚ
  logged_calories : ℚ
  burned_calories : ℚ
  history : List HistEvent
  last_temp : Option ℚ
  last_temp_ts : Option ℚ
  last_date : String
deriving DecidableEq

/-- The zero-valued record `get_user` installs for a new user id. -/
def defaultUser (today : String) : UserRec where
  weight := none
  height := none
  age := none
  sex := none
  activity := none
  city := none
  manual_calorie_goal := none
  logged_water := 0
  logged_calories := 0
  burned_calories := 0
  history := []
  last_temp := none
  last_temp_ts := none
  last_date := today

/-- `get_user` from bot.py: resolve the stored record (or install the default),
then perform the lazy daily rollover when the stored `last_date` differs from
today. -/
def get_user (today : String) (existing : Option UserRec) : UserRec :=
  let user := existing.getD (defaultUser today)
  if user.last_date ≠ today then
    { user with
        logged_water := 0
        logged_calories := 0
        burned_calories := 0
        history := []
        last_date := today }
  else user

/-- `ensure_profile` from bot.py:
`all([user.get("weight"), user.get("height"), user.get("age"), user.get("activity")])`.
Python truthiness on an optional number: `None` and `0` are falsy. -/
def truthyQ : Option ℚ → Bool
  | none => false
  | some q => decide (q ≠ 0)

/-- Python truthiness of an optional integer field. -/
def truthyZ : Option ℤ → Bool
  | none => false
  | some z => decide (z ≠ 0)

/-- `ensure_profile` from bot.py (the profile-completeness gate). -/
def ensure_profile (u : UserRec) : Bool :=
  truthyQ u.weight && truthyZ u.height && truthyZ u.age && truthyZ u.activity

/-- `set_activity` from bot.py, the AwaitActivity validation step:
`parse_int`, reject `None` or negative, otherwise store the minutes. -/
def set_activity (input : String) : Option ℤ :=
  match parse_int input with
  | none => none
  | some a => if a < 0 then none else some a

/-- `calc_water_goal` from bot.py. -/
def calc_water_goal (weight : ℚ) (activity : ℤ) (temp_c : Option ℚ) : ℤ :=
  if weight = 0 then 0
  else
    let base : ℚ := weight * 30
    let activity_bonus : ℚ := if activity ≠ 0 then ((Int.fdiv activity 30 * 500 : ℤ) : ℚ) else 0
    let heat_bonus : ℚ :=
      match temp_c with
      | some t => if t > 30 then 1000 else if t > 25 then 500 else 0
      | none => 0
    truncQ (base + activity_bonus + heat_bonus)

/-- `calc_calorie_goal` from bot.py.  The `not all([weight, height, age])`
check treats both `None` and `0` as missing. -/
def calc_calorie_goal (weight : Option ℚ) (height : Option ℤ) (age : Option ℤ)
    (sex : Option String) (activity : ℤ) : ℤ :=
  match weight, height, age with
  | some w, some h, some a =>
    if w = 0 ∨ h = 0 ∨ a = 0 then 0
    else
      let s : ℚ := if sex = some "male" then 5 else if sex = some "female" then -161 else 0
      let bmr : ℚ := 10 * w + 6.25 * (h : ℚ) - 5 * (a : ℚ) + s
      let activity_bonus : ℚ := if activity ≠ 0 then ((Int.fdiv activity 30 * 100 : ℤ) : ℚ) else 0
      truncQ (bmr + activity_bonus)
  | _, _, _ => 0

/-- Python truthiness of the optional `city` string: `None` and `""` are falsy. -/
def cityTruthy : Option String → Bool
  | none => false
  | some s => !s.data.isEmpty

/-- Outcome of one call to the weather collaborator, as observed by
`get_temperature`: a 200 response with a temperature, a non-200 status,
a 200 response whose payload lacks the temperature field, or a raised
transport exception. -/
inductive FetchResult where
  | success (t : ℚ)
  | non200
  | missingTemp
  | exception
deriving DecidableEq

/-- Whether a collaborator outcome is a failure. -/
def isFailure : FetchResult → Bool
  | .success _ => false
  | _ => true

/-- Result of `get_temperature`: the returned optional temperature, the
updated user record, and whether a collaborator call was issued. -/
structure TempResult where
  temp : Option ℚ
  user : UserRec
  fetched : Bool
deriving DecidableEq

/-- The fetch branch of `get_temperature`: on a usable response store the
value and timestamp and return it; on any failure return `None` leaving
the record untouched. -/
def fetchTemp (now : ℚ) (u : UserRec) (f : FetchResult) : TempResult :=
  match f with
  | .success t => ⟨some t, { u with last_temp := some t, last_temp_ts := some now }, true⟩
  | .non200 => ⟨none, u, true⟩
  | .missingTemp => ⟨none, u, true⟩
  | .exception => ⟨none, u, true⟩

/-- `get_temperature` from bot.py.  `hasKey` models whether `OWM_API_KEY`
is configured; `now` is the current time in minutes; `f` is the outcome
the collaborator would produce if called. -/
def get_temperature (city : Option String) (hasKey : Bool) (now : ℚ)
    (u : UserRec) (f : FetchResult) : TempResult :=
  if cityTruthy city = false ∨ hasKey = false then ⟨none, u, false⟩
  else
    match u.last_temp_ts with
    | some ts => if now - ts < 30 then ⟨u.last_temp, u, false⟩ else fetchTemp now u f
    | none => fetchTemp now u f

/-- The calorie goal actually used by `check_progress`, `show_profile`,
`plot_progress` and `recommend`:
`user.get("manual_calorie_goal") or calc_calorie_goal(...)` — Python `or`
falls through on a falsy (absent or zero) override. -/
def calorie_goal_used (u : UserRec) : ℤ :=
  match u.manual_calorie_goal with
  | some v =>
    if v = 0 then calc_calorie_goal u.weight u.height u.age u.sex (u.activity.getD 0) else v
  | none => calc_calorie_goal u.weight u.height u.age u.sex (u.activity.getD 0)

/-- `set_manual_calories` from bot.py, the AwaitManualCalorieValue step:
`parse_int`, reject `not value or value <= 0` (re-prompt, `false`),
otherwise store the override and complete (`true`). -/
def set_manual_calories (input : String) (u : UserRec) : UserRec × Bool :=
  match parse_int input with
  | some v => if v ≤ 0 then (u, false) else ({ u with manual_calorie_goal := some v }, true)
  | none => (u, false)

/-- States of the food-logging conversation. -/
inductive FoodState where
  | awaitName
  | awaitKcalManual
  | awaitGrams
  | ended
deriving DecidableEq

/-- `log_food_name` from bot.py, reduced to its routing: a successful
lookup captures kcal/100g and advances to AwaitGrams; a failed lookup
falls back to AwaitManualKcal with nothing captured. -/
def log_food_name (lookup : Option ℚ) : FoodState × Option ℚ :=
  match lookup with
  | some k => (.awaitGrams, some k)
  | none => (.awaitKcalManual, none)

/-- `log_food_kcal_manual` from bot.py: `parse_float`, reject `None` or
`<= 0` (re-prompt, `none`), otherwise capture kcal/100g. -/
def log_food_kcal_manual (input : String) : Option ℚ :=
  match parse_float input with
  | none => none
  | some k => if k ≤ 0 then none else some k

/-- Outcome of the AwaitGrams step. -/
inductive FoodStepResult where
  | reprompt
  | endNoKcal
  | logged (consumed : ℚ)
deriving DecidableEq

/-- `log_food_grams` from bot.py: parse grams, reject `None` or `<= 0`;
with no captured kcal end without logging; otherwise accumulate
`kcal_per_100g * grams / 100`, append one food history event, and end. -/
def log_food_grams (kcal : Option ℚ) (input : String) (now : ℚ)
    (u : UserRec) : UserRec × FoodStepResult :=
  match parse_float input with
  | none => (u, .reprompt)
  | some g =>
    if g ≤ 0 then (u, .reprompt)
    else
      match kcal with
      | none => (u, .endNoKcal)
      | some k =>
        let consumed : ℚ := k * g / 100
        ({ u with
            logged_calories := u.logged_calories + consumed
            history := u.history ++ [⟨now, "food", consumed⟩] },
         .logged consumed)

/-- `WORKOUT_KCAL_PER_MIN` from bot.py (keys as the literal strings in the source). -/
def WORKOUT_KCAL_PER_MIN (t : String) : Option ℤ :=
  if t = "–±–µ–≥" then some 10
  else if t = "—Ö–æ–¥—å–±–∞" then some 4
  else if t = "–≤–µ–ª–æ—Å–∏–ø–µ–¥" then some 7
  else if t = "–ø–ª–∞–≤–∞–Ω–∏–µ" then some 8
  else if t = "—Å–∏–ª–æ–≤–∞—è" then some 6
  else if t = "–π–æ–≥–∞" then some 3
  else none

/-- Result of a successful `log_workout`: updated record, burned
calories, and the bonus-hydration suggestion in ml. -/
structure WorkoutResult where
  user : UserRec
  burned : ℤ
  extra_water : ℤ
deriving DecidableEq

/-- `log_workout` from bot.py, after the profile gate: `minutes` is the
parsed last argument (`None`/`<= 0` rejected); unknown types fall back
to 6 kcal/min; `extra_water = (minutes // 30) * 200`. -/
def log_workout (wtype : String) (minutes : Option ℤ) (now : ℚ)
    (u : UserRec) : Option WorkoutResult :=
  match minutes with
  | none => none
  | some m =>
    if m ≤ 0 then none
    else
      let kcal_per_min := (WORKOUT_KCAL_PER_MIN wtype).getD 6
      let burned := kcal_per_min * m
      some ⟨{ u with
                burned_calories := u.burned_calories + (burned : ℚ)
                history := u.history ++ [⟨now, "workout", (burned : ℚ)⟩] },
            burned, Int.fdiv m 30 * 200⟩

/-- `reset_day` from bot.py: resolve the user (rollover included), then
unconditionally zero the accumulators, clear the history, and stamp today. -/
def reset_day (today : String) (existing : Option UserRec) : UserRec :=
  let user := get_user today existing
  { user with
      logged_water := 0
      logged_calories := 0
      burned_calories := 0
      history := []
      last_date := today }

/-- A baseline concrete record (a fresh user created yesterday). -/
def mkUser : UserRec := defaultUser "2026-10-11"

/-- Heat bonus exactly as the spec words it: 1000 above 30 °C, 500 above
25 °C, otherwise 0; absent temperature contributes 0 (refinement target). -/
def heatBonusSpec : Option ℚ → ℚ
  | some t => if t > 30 then 1000 else if t > 25 then 500 else 0
  | none => 0

/-- Water-goal formula as the spec words it (refinement target):
weight × 30, plus 500 per complete 30-minute activity block, plus the
heat bonus, truncated to an integer. -/
def waterGoalSpec (w : ℚ) (a : ℤ) (t : Option ℚ) : ℤ :=
  truncQ (w * 30 + 500 * ((Int.fdiv a 30 : ℤ) : ℚ) + heatBonusSpec t)

/-- Sex term as the spec words it: +5 male, −161 female, 0 unspecified
(refinement target). -/
def sexTermSpec (sex : Option String) : ℚ :=
  if sex = some "male" then 5 else if sex = some "female" then -161 else 0

/-- A concrete ledger with nonzero accumulators, last reset yesterday. -/
def uLedger : UserRec :=
  { mkUser with
      logged_water := 500
      logged_calories := 300
      burned_calories := 100
      history := [⟨0, "water", 500⟩] }

/-- A concrete record whose profile fields are set but whose activity is 0. -/
def uZeroActivity : UserRec :=
  { mkUser with weight := some 70, height := some 175, age := some 30, activity := some 0 }

/-- On non-negative rationals, Python truncation agrees with the floor. -/
theorem truncQ_eq_floor (q : ℚ) (h : 0 ≤ q) : truncQ q = ⌊q⌋ := by
  have hn : 0 ≤ q.num := Rat.num_nonneg.mpr h
  rw [truncQ, if_pos hn, Rat.floor_def, Int.natCast_div]
  congr 1
  exact Int.toNat_of_nonneg hn

/-- Evaluate `truncQ` on a non-negative rational from explicit integer bounds. -/
theorem truncQ_eq_of_bounds (q : ℚ) (z : ℤ) (h0 : 0 ≤ q) (h1 : (z : ℚ) ≤ q)
    (h2 : q < z + 1) : truncQ q = z := by
  rw [truncQ_eq_floor q h0]
  exact Int.floor_eq_iff.mpr ⟨h1, h2⟩

/-- C1 (code bug evidence): the AwaitActivity state accepts "0" and stores
activity 0, yet `ensure_profile` then reports the profile incomplete,
because Python `all` treats the integer 0 as falsy; with any nonzero
activity the same profile passes the gate. -/
theorem ensure_profile_zero_activity_bug :
    set_activity "0" = some 0 ∧
    ensure_profile uZeroActivity = false ∧
    ensure_profile { uZeroActivity with activity := some 30 } = true := by
  refine ⟨by decide, by decide, by decide⟩

/-- C2: resolving a user record through `get_user` on a date other than its
stored last-reset date zeroes all three accumulators and the history
together and stamps today, resolving on the stored date leaves the record
unchanged, and the rollover is idempotent within a day. -/
theorem get_user_rollover_correct (today : String) (u : UserRec) :
    (u.last_date ≠ today →
      get_user today (some u) =
        { u with
            logged_water := 0
            logged_calories := 0
            burned_calories := 0
            history := []
            last_date := today }) ∧
    (u.last_date = today → get_user today (some u) = u) ∧
    get_user today (some (get_user today (some u))) = get_user today (some u) := by
  unfold get_user
  by_cases h : u.last_date = today <;> simp [h]

/-- Witness for C2 at a concrete stale ledger. -/
theorem get_user_rollover_correct_witness :
    get_user "2026-10-12" (some uLedger) =
      { uLedger with
          logged_water := 0
          logged_calories := 0
          burned_calories := 0
          history := []
          last_date := "2026-10-12" } :=
  (get_user_rollover_correct "2026-10-12" uLedger).1 (by decide)

/-- C3: for positive weight and non-negative activity minutes,
`calc_water_goal` equals the spec formula (weight × 30 plus 500 per
complete 30-minute activity block plus the heat bonus, truncated), and
the spec's two worked examples hold. -/
theorem calc_water_goal_correct :
    (∀ (w : ℚ) (a : ℤ) (t : Option ℚ), 0 < w → 0 ≤ a →
      calc_water_goal w a t = waterGoalSpec w a t) ∧
    calc_water_goal 70 0 none = 2100 ∧
    calc_water_goal 70 30 (some 32) = 3600 := by
  have hgen : ∀ (w : ℚ) (a : ℤ) (t : Option ℚ), 0 < w → 0 ≤ a →
      calc_water_goal w a t = waterGoalSpec w a t := by
    intro w a t hw _
    cases t <;>
      · unfold calc_water_goal waterGoalSpec heatBonusSpec
        rw [if_neg hw.ne']
        congr 1
        by_cases ha : a = 0
        · subst ha; norm_num
        · rw [if_pos ha]; push_cast; ring
  refine ⟨hgen, ?_, ?_⟩
  · rw [hgen 70 0 none (by norm_num) le_rfl]
    unfold waterGoalSpec heatBonusSpec
    rw [show Int.fdiv 0 30 = 0 from rfl]
    apply truncQ_eq_of_bounds <;> norm_num
  · rw [hgen 70 30 (some 32) (by norm_num) (by norm_num)]
    unfold waterGoalSpec heatBonusSpec
    rw [show Int.fdiv 30 30 = 1 from rfl]
    norm_num
    apply truncQ_eq_of_bounds <;> norm_num

/-- Witness for C3 at a concrete positive weight and activity. -/
theorem calc_water_goal_correct_witness :
    calc_water_goal 80 45 (some 26) = waterGoalSpec 80 45 (some 26) :=
  calc_water_goal_correct.1 80 45 (some 26) (by norm_num) (by norm_num)


/-- C4: `calc_calorie_goal` returns 0 whenever weight, height or age is
unset or zero; otherwise it is the truncated Mifflin-St Jeor value plus
100 per complete 30-minute activity block, with sex term +5 male, −161
female, 0 unspecified; and the spec's worked example gives 1848. -/
theorem calc_calorie_goal_correct :
    (∀ (w : Option ℚ) (h a : Option ℤ) (sex : Option String) (act : ℤ),
      w = none ∨ w = some 0 ∨ h = none ∨ h = some 0 ∨ a = none ∨ a = some 0 →
      calc_calorie_goal w h a sex act = 0) ∧
    (∀ (w : ℚ) (h a : ℤ) (sex : Option String) (act : ℤ),
      w ≠ 0 → h ≠ 0 → a ≠ 0 →
      calc_calorie_goal (some w) (some h) (some a) sex act =
        truncQ (10 * w + 6.25 * (h : ℚ) - 5 * (a : ℚ) + sexTermSpec sex
          + 100 * ((Int.fdiv act 30 : ℤ) : ℚ))) ∧
    calc_calorie_goal (some 70) (some 175) (some 30) (some "male") 60 = 1848 := by
  have hpos : ∀ (w : ℚ) (h a : ℤ) (sex : Option String) (act : ℤ),
      w ≠ 0 → h ≠ 0 → a ≠ 0 →
      calc_calorie_goal (some w) (some h) (some a) sex act =
        truncQ (10 * w + 6.25 * (h : ℚ) - 5 * (a : ℚ) + sexTermSpec sex
          + 100 * ((Int.fdiv act 30 : ℤ) : ℚ)) := by
    intro w h a sex act hw hh ha
    have hguard : ¬(w = 0 ∨ h = 0 ∨ a = 0) := by
      push_neg
      exact ⟨hw, hh, ha⟩
    simp only [calc_calorie_goal, sexTermSpec]
    rw [if_neg hguard]
    congr 1
    by_cases hact : act = 0
    · subst hact
      rw [show Int.fdiv 0 30 = 0 from rfl]
      simp
    · rw [if_pos hact]
      push_cast
      ring
  refine ⟨?_, hpos, ?_⟩
  · intro w h a sex act hyp
    rcases w with _ | w <;> rcases h with _ | h <;> rcases a with _ | a <;>
      simp_all [calc_calorie_goal]
  · rw [hpos 70 175 30 (some "male") 60 (by norm_num) (by norm_num) (by norm_num)]
    unfold sexTermSpec
    rw [show Int.fdiv 60 30 = 2 from rfl]
    norm_num
    apply truncQ_eq_of_bounds <;> norm_num

/-- Witness for C4 at a concrete set of biometrics. -/
theorem calc_calorie_goal_correct_witness :
    calc_calorie_goal (some 60) (some 165) (some 25) (some "female") 90 =
      truncQ (10 * 60 + 6.25 * (165 : ℚ) - 5 * (25 : ℚ) + sexTermSpec (some "female")
        + 100 * ((Int.fdiv 90 30 : ℤ) : ℚ)) :=
  calc_calorie_goal_correct.2.1 60 165 25 (some "female") 90 (by norm_num) (by norm_num)
    (by norm_num)

/-- C5: `get_temperature` returns absent when the city is empty/unset or
the API key is unconfigured; returns the cached value without a
collaborator call while the fetch timestamp is under 30 minutes old; and
on an expired (or absent) window with a failing refetch returns absent
while leaving the stored value and timestamp untouched. -/
theorem get_temperature_correct :
    (∀ (city : Option String) (hasKey : Bool) (now : ℚ) (u : UserRec) (f : FetchResult),
      cityTruthy city = false ∨ hasKey = false →
      get_temperature city hasKey now u f = ⟨none, u, false⟩) ∧
    (∀ (city : Option String) (hasKey : Bool) (now : ℚ) (u : UserRec) (f : FetchResult)
      (ts : ℚ),
      cityTruthy city = true → hasKey = true → u.last_temp_ts = some ts →
      now - ts < 30 →
      get_temperature city hasKey now u f = ⟨u.last_temp, u, false⟩) ∧
    (∀ (city : Option String) (hasKey : Bool) (now : ℚ) (u : UserRec) (f : FetchResult),
      cityTruthy city = true → hasKey = true →
      (∀ ts, u.last_temp_ts = some ts → 30 ≤ now - ts) →
      isFailure f = true →
      get_temperature city hasKey now u f = ⟨none, u, true⟩) := by
  refine ⟨?_, ?_, ?_⟩
  · intro city hasKey now u f hcond
    unfold get_temperature
    rw [if_pos hcond]
  · intro city hasKey now u f ts hc hk hts hwin
    unfold get_temperature
    rw [if_neg (by simp [hc, hk]), hts]
    simp [hwin]
  · intro city hasKey now u f hc hk hwin hf
    unfold get_temperature
    rw [if_neg (by simp [hc, hk])]
    have hfetch : fetchTemp now u f = ⟨none, u, true⟩ := by
      cases f with
      | success t => simp [isFailure] at hf
      | non200 => rfl
      | missingTemp => rfl
      | exception => rfl
    cases h : u.last_temp_ts with
    | none => simpa using hfetch
    | some ts =>
      have := hwin ts h
      simp [not_lt.mpr this, hfetch]

/-- Witness for C5: an expired cache entry plus a transport failure
returns absent and preserves the stored value and timestamp. -/
theorem get_temperature_correct_witness :
    get_temperature (some "Oslo") true 31
        { uLedger with last_temp := some 20, last_temp_ts := some 0 } .exception =
      ⟨none, { uLedger with last_temp := some 20, last_temp_ts := some 0 }, true⟩ :=
  get_temperature_correct.2.2 (some "Oslo") true 31
    { uLedger with last_temp := some 20, last_temp_ts := some 0 } .exception
    (by decide) rfl
    (by intro ts hts; simp only [Option.some.injEq] at hts; subst hts; norm_num)
    rfl

/-- C6 counterexample: two `get` calls 4 minutes apart (under 5) with no
prior fetch timestamp, where the first call's fetch fails, both issue a
collaborator call — the claim's "at most one call across the two" is
false when the first fetch does not succeed. -/
theorem get_temperature_double_fetch_counterexample :
    (0 : ℚ) ≤ 4 - 0 ∧ (4 : ℚ) - 0 < 5 ∧
    (get_temperature (some "Oslo") true 0 mkUser .exception).fetched = true ∧
    (get_temperature (some "Oslo") true 4
        (get_temperature (some "Oslo") true 0 mkUser .exception).user
        .exception).fetched = true := by
  refine ⟨by norm_num, by norm_num, rfl, rfl⟩


/-- When the city is usable, the key is configured, and no fetch
timestamp inside the 30-minute window exists, `get_temperature` falls
through to the fetch branch. -/
theorem get_temperature_fetches {city : Option String} {hasKey : Bool} {now : ℚ}
    {u : UserRec} (f : FetchResult) (hc : cityTruthy city = true) (hk : hasKey = true)
    (hwin : ∀ ts, u.last_temp_ts = some ts → 30 ≤ now - ts) :
    get_temperature city hasKey now u f = fetchTemp now u f := by
  unfold get_temperature
  rw [if_neg (by simp [hc, hk])]
  cases hts : u.last_temp_ts with
  | none => rfl
  | some ts => simp [not_lt.mpr (hwin ts hts)]

/-- With a usable city and key and a fetch timestamp inside the
30-minute window, `get_temperature` answers from the cache. -/
theorem get_temperature_cacheHit {city : Option String} {hasKey : Bool} {now : ℚ}
    {u : UserRec} (f : FetchResult) {ts : ℚ} (hc : cityTruthy city = true)
    (hk : hasKey = true) (hts : u.last_temp_ts = some ts) (hwin : now - ts < 30) :
    get_temperature city hasKey now u f = ⟨u.last_temp, u, false⟩ := by
  unfold get_temperature
  rw [if_neg (by simp [hc, hk]), hts]
  simp [hwin]

/-- C6 (amended): two `get` calls separated by under 5 minutes issue at
most one collaborator call across the two provided the first call's
fetch, if issued, succeeds; and with a non-empty city and configured key,
any call made more than 30 minutes after the stored fetch timestamp
issues a new collaborator call regardless of the prior outcome. -/
theorem get_temperature_calls_amended :
    (∀ (city : Option String) (hasKey : Bool) (t1 t2 : ℚ) (u : UserRec) (v : ℚ)
      (f2 : FetchResult),
      0 ≤ t2 - t1 → t2 - t1 < 5 →
      ¬((get_temperature city hasKey t1 u (.success v)).fetched = true ∧
        (get_temperature city hasKey t2
            (get_temperature city hasKey t1 u (.success v)).user f2).fetched = true)) ∧
    (∀ (city : Option String) (hasKey : Bool) (now : ℚ) (u : UserRec) (f : FetchResult)
      (ts : ℚ),
      cityTruthy city = true → hasKey = true → u.last_temp_ts = some ts →
      30 < now - ts →
      (get_temperature city hasKey now u f).fetched = true) := by
  constructor
  · intro city hasKey t1 t2 u v f2 hge hlt
    by_cases hcond : cityTruthy city = false ∨ hasKey = false
    · rw [show get_temperature city hasKey t1 u (.success v) = ⟨none, u, false⟩ from by
        unfold get_temperature; rw [if_pos hcond]]
      simp
    · push_neg at hcond
      have hc : cityTruthy city = true := Bool.not_eq_false _ ▸ hcond.1
      have hk : hasKey = true := Bool.not_eq_false _ ▸ hcond.2
      rcases hts : u.last_temp_ts with _ | ts
      · rw [get_temperature_fetches (.success v) hc hk
          (fun ts' hts' => by rw [hts] at hts'; cases hts')]
        simp only [fetchTemp]
        rw [get_temperature_cacheHit f2 hc hk rfl (by linarith)]
        simp
      · by_cases hwin : t1 - ts < 30
        · rw [get_temperature_cacheHit (.success v) hc hk hts hwin]
          simp
        · rw [get_temperature_fetches (.success v) hc hk
            (fun ts' hts' => by
              rw [hts] at hts'
              injection hts' with e
              subst e
              exact not_lt.mp hwin)]
          simp only [fetchTemp]
          rw [get_temperature_cacheHit f2 hc hk rfl (by linarith)]
          simp
  · intro city hasKey now u f ts hc hk hts hgap
    rw [get_temperature_fetches f hc hk
      (fun ts' hts' => by
        rw [hts] at hts'
        injection hts' with e
        subst e
        linarith)]
    cases f <;> rfl

/-- Witness for C6 (amended): a successful first fetch suppresses the
second call 4 minutes later. -/
theorem get_temperature_calls_amended_witness :
    ¬((get_temperature (some "Oslo") true 0 mkUser (.success 20)).fetched = true ∧
      (get_temperature (some "Oslo") true 4
          (get_temperature (some "Oslo") true 0 mkUser (.success 20)).user
          .exception).fetched = true) :=
  get_temperature_calls_amended.1 (some "Oslo") true 0 4 mkUser 20 .exception
    (by norm_num) (by norm_num)

/-- Unfolding equation for `set_manual_calories` when parsing fails. -/
theorem set_manual_calories_none {s : String} {u : UserRec}
    (hp : parse_int s = none) : set_manual_calories s u = (u, false) := by
  unfold set_manual_calories
  rw [hp]

/-- Unfolding equation for `set_manual_calories` when parsing yields a value. -/
theorem set_manual_calories_some {s : String} {u : UserRec} {v : ℤ}
    (hp : parse_int s = some v) :
    set_manual_calories s u =
      if v ≤ 0 then (u, false) else ({ u with manual_calorie_goal := some v }, true) := by
  unfold set_manual_calories
  rw [hp]

/-- C7: the AwaitManualCalorieValue step only ever stores a positive
override; whenever the stored override is a positive value the
commands' calorie goal is that override, and when it is unset the
Mifflin-St Jeor computation is used. -/
theorem manual_calorie_override_correct :
    (∀ (s : String) (u : UserRec),
      (set_manual_calories s u).2 = true →
      ∃ v, 0 < v ∧ ((set_manual_calories s u).1).manual_calorie_goal = some v) ∧
    (∀ (u : UserRec) (v : ℤ), u.manual_calorie_goal = some v → 0 < v →
      calorie_goal_used u = v) ∧
    (∀ u : UserRec, u.manual_calorie_goal = none →
      calorie_goal_used u =
        calc_calorie_goal u.weight u.height u.age u.sex (u.activity.getD 0)) := by
  refine ⟨?_, ?_, ?_⟩
  · intro s u hacc
    cases hp : parse_int s with
    | none =>
      rw [set_manual_calories_none hp] at hacc
      simp at hacc
    | some v =>
      rw [set_manual_calories_some hp] at hacc ⊢
      by_cases hv : v ≤ 0
      · rw [if_pos hv] at hacc
        simp at hacc
      · rw [if_neg hv] at hacc ⊢
        exact ⟨v, not_le.mp hv, rfl⟩
  · intro u v hset hpos
    unfold calorie_goal_used
    rw [hset]
    simp [hpos.ne']
  · intro u hnone
    unfold calorie_goal_used
    rw [hnone]

/-- Witness for C7 at a concrete record with a stored override. -/
theorem manual_calorie_override_correct_witness :
    calorie_goal_used { mkUser with manual_calorie_goal := some 1800 } = 1800 :=
  manual_calorie_override_correct.2.1 { mkUser with manual_calorie_goal := some 1800 }
    1800 rfl (by decide)

/-- C8: at AwaitGrams with captured kcal-per-100g, a positive parsed
grams input adds exactly kcal × grams / 100 to the logged-calorie
accumulator, appends exactly one food event, and ends the session;
a failed name lookup routes to the manual-kcal state, "250" is captured
as 250 kcal/100g, and grams "150" then logs 375 kcal, leaving water and
burned calories unchanged. -/
theorem log_food_grams_correct :
    (∀ (k g : ℚ) (s : String) (now : ℚ) (u : UserRec),
      parse_float s = some g → 0 < g →
      log_food_grams (some k) s now u =
        ({ u with
            logged_calories := u.logged_calories + k * g / 100
            history := u.history ++ [⟨now, "food", k * g / 100⟩] },
         .logged (k * g / 100))) ∧
    log_food_name none = (.awaitKcalManual, none) ∧
    log_food_kcal_manual "250" = some 250 ∧
    (log_food_grams (some 250) "150" 0 uLedger).1.logged_calories =
      uLedger.logged_calories + 375 ∧
    (log_food_grams (some 250) "150" 0 uLedger).1.history =
      uLedger.history ++ [⟨0, "food", 375⟩] ∧
    (log_food_grams (some 250) "150" 0 uLedger).1.logged_water = uLedger.logged_water ∧
    (log_food_grams (some 250) "150" 0 uLedger).1.burned_calories =
      uLedger.burned_calories ∧
    (log_food_grams (some 250) "150" 0 uLedger).2 = .logged 375 := by
  have hgen : ∀ (k g : ℚ) (s : String) (now : ℚ) (u : UserRec),
      parse_float s = some g → 0 < g →
      log_food_grams (some k) s now u =
        ({ u with
            logged_calories := u.logged_calories + k * g / 100
            history := u.history ++ [⟨now, "food", k * g / 100⟩] },
         .logged (k * g / 100)) := by
    intro k g s now u hp hg
    unfold log_food_grams
    rw [hp]
    simp [not_le.mpr hg]
  have hconc := hgen 250 150 "150" 0 uLedger (by decide) (by norm_num)
  have hval : (250 : ℚ) * 150 / 100 = 375 := by norm_num
  rw [hval] at hconc
  refine ⟨hgen, rfl, by decide, ?_, ?_, ?_, ?_, ?_⟩ <;> rw [hconc]

/-- Witness for C8 at concrete captured kcal and grams input. -/
theorem log_food_grams_correct_witness :
    log_food_grams (some 40) "150" 7 uLedger =
      ({ uLedger with
          logged_calories := uLedger.logged_calories + 40 * 150 / 100
          history := uLedger.history ++ [⟨7, "food", 40 * 150 / 100⟩] },
       .logged (40 * 150 / 100)) :=
  log_food_grams_correct.1 40 150 "150" 7 uLedger (by decide) (by norm_num)

/-- C9: a positive workout of a type outside the known-rate table burns
6 kcal per minute, accumulates into burned calories with exactly one
workout history event, and suggests 200 ml per complete 30-minute block;
65 minutes of an unlisted type gives 390 kcal and 400 ml. -/
theorem log_workout_correct :
    (∀ (wt : String) (m : ℤ) (now : ℚ) (u : UserRec),
      0 < m → WORKOUT_KCAL_PER_MIN wt = none →
      log_workout wt (some m) now u =
        some ⟨{ u with
                  burned_calories := u.burned_calories + ((6 * m : ℤ) : ℚ)
                  history := u.history ++ [⟨now, "workout", ((6 * m : ℤ) : ℚ)⟩] },
              6 * m, Int.fdiv m 30 * 200⟩) ∧
    (log_workout "dance" (some 65) 0 uLedger).map WorkoutResult.burned = some 390 ∧
    (log_workout "dance" (some 65) 0 uLedger).map WorkoutResult.extra_water = some 400 ∧
    (log_workout "dance" (some 65) 0 uLedger).map (fun r => r.user.history.length) =
      some (uLedger.history.length + 1) := by
  refine ⟨?_, by decide, by decide, by decide⟩
  intro wt m now u hm htab
  simp only [log_workout]
  rw [if_neg (not_le.mpr hm), htab]
  rfl

/-- Witness for C9 at a concrete unlisted workout type. -/
theorem log_workout_correct_witness :
    log_workout "rowing" (some 40) 3 uLedger =
      some ⟨{ uLedger with
                burned_calories := uLedger.burned_calories + ((6 * 40 : ℤ) : ℚ)
                history := uLedger.history ++ [⟨3, "workout", ((6 * 40 : ℤ) : ℚ)⟩] },
            6 * 40, Int.fdiv 40 30 * 200⟩ :=
  log_workout_correct.1 "rowing" 40 3 uLedger (by decide) (by decide)

/-- C10: `reset_day` zeroes the three accumulators, clears the history,
and stamps today, for any record (complete profile or not), leaving all
profile fields and the temperature-cache fields unchanged. -/
theorem reset_day_correct (today : String) (u : UserRec) :
    reset_day today (some u) =
      { u with
          logged_water := 0
          logged_calories := 0
          burned_calories := 0
          history := []
          last_date := today } := by
  unfold reset_day get_user
  by_cases h : u.last_date = today <;> simp [h]
